import Mathlib

/-!
Verification of the onto-diff-curator pipeline (scrape / analyze stages).

The definitions below are shallow embeddings of the Python sources:
  - `src/ontodiff_curator/main.py`   (`scrape_repo`, `analyze_repo`)
  - `src/ontodiff_curator/utils.py`  (`check_rate_limit`, `owl2obo`, `download_file`)
  - `src/ontodiff_curator/cli.py`    (the `analyze` subcommand wiring)
Each definition's doc comment cites the lines it translates.
-/

/-! ## Rate-limit governor (`scrape_repo` lines 170-177, `download_file` lines 86-94) -/

/-- Sleep duration chosen after the rate-limit check:
`if remaining < 10: sleep(max(0, reset_timestamp - current_timestamp + 10)) else: sleep(0.72)`
(`main.py` lines 172-177; identical code in `utils.py` lines 89-94). -/
def sleepDuration (remaining : Nat) (reset now : ℚ) : ℚ :=
  if remaining < 10 then max 0 (reset - now + 10) else 0.72

/-! ## Resilient fetcher (`utils.py` `download_file`, lines 83-106)

The `while True` loop is embedded as structural recursion over the trace of
outcomes of the successive `requests.get` attempts.  A `response st body`
attempt models `requests.get` returning a response with HTTP status `st`
(`raise_for_status` raises `HTTPError`, a `RequestException`, iff `st ≥ 400`);
`readTimeout` models `requests.exceptions.ReadTimeout`; `reqError` models any
other `requests.exceptions.RequestException` raised by the call itself.
The second component of the result is the content of the destination file
(`none` when absent). -/

inductive FetchAttempt
  | response (status : Nat) (body : String)
  | readTimeout
  | reqError (msg : String)
deriving DecidableEq

/-- Outcome of a `download_file` call.  `success`: body written, `break` at line
100.  `abortedReturn`: the `except RequestException` handler at lines 104-106
logged and executed `break`, so the function RETURNS NORMALLY.  `pendingRetry`:
the attempt trace ended while the loop was still retrying timeouts.
`raisedToCaller` is included so that "the exception propagates out of
`download_file`" is expressible; the source never produces it (every
`RequestException` is caught at line 104). -/
inductive DownloadResult
  | success
  | abortedReturn
  | pendingRetry
  | raisedToCaller (msg : String)
deriving DecidableEq

/-- `download_file` body (`utils.py` lines 84-106): on a response,
`raise_for_status()` (line 97) raises for status ≥ 400, which is caught at
line 104 and breaks with the file untouched; otherwise the body is written
(`open(file_path, "wb")`, lines 98-99) and the loop breaks.  A `ReadTimeout`
sleeps `RETRY_DELAY` and retries (lines 101-103); any other request exception
logs and breaks (lines 104-106). -/
def downloadFileRun : List FetchAttempt → Option String → DownloadResult × Option String
  | [], file => (DownloadResult.pendingRetry, file)
  | FetchAttempt.response st body :: _, file =>
      if st < 400 then (DownloadResult.success, some body)
      else (DownloadResult.abortedReturn, file)
  | FetchAttempt.readTimeout :: rest, file => downloadFileRun rest file
  | FetchAttempt.reqError _ :: _, file => (DownloadResult.abortedReturn, file)

/-- Whether a `download_file` outcome propagates an exception to the caller. -/
def resultPropagatesToCaller : DownloadResult → Bool
  | DownloadResult.raisedToCaller _ => true
  | _ => false

/-! ## Resume / reconciliation logic (`analyze_repo`, `main.py` lines 214-240) -/

/-- File-open mode chosen by `analyze_repo`. -/
inductive StoreMode
  | write
  | append
deriving DecidableEq

/-- The plan `analyze_repo` commits to before its per-record loop.
`earlyExit` is the `return` at line 226 ("All data already analyzed", nothing
opened for writing); `run mode writesMetadata records` records the open mode,
whether the metadata block is dumped (line 237), and the record list iterated
(lines 238-240); `nameError` is the unbound-variable failure reached at line
240 when the final store is absent and `overwrite` is false (`pr_remaining`
is only assigned at line 227). -/
inductive AnalyzePlan
  | earlyExit
  | run (mode : StoreMode) (writesMetadata : Bool) (records : List Nat)
  | nameError
deriving DecidableEq

/-- Embedding of `main.py` lines 214-240, with PR records represented by their
numbers (`int(pr[PR_NUMBER_KEY].strip("pr"))`).  Branches:
exists ∧ overwrite → unlink, mode "w", metadata, all records (lines 215-218, 236-238);
exists ∧ ¬overwrite → compare the two id sets, `return` on equality (lines
220-226), else filter to the set difference `pr_remaining` in append mode
(lines 227-228, 240); absent ∧ overwrite → mode "a", metadata, all records
(lines 230-232, 236-238); absent ∧ ¬overwrite → `pr_remaining` was never
assigned, so line 240 raises `NameError`. -/
def analyzePlan (finalExists overwrite : Bool) (scraped analyzed : List Nat) : AnalyzePlan :=
  if finalExists then
    if overwrite then AnalyzePlan.run StoreMode.write true scraped
    else if scraped.toFinset = analyzed.toFinset then AnalyzePlan.earlyExit
    else AnalyzePlan.run StoreMode.append false
      (scraped.filter (fun n => decide (n ∈ scraped.toFinset \ analyzed.toFinset)))
  else
    if overwrite then AnalyzePlan.run StoreMode.append true scraped
    else AnalyzePlan.nameError

/-! ## Python string primitives

Embeddings of the Python string operations the sources use, written over
`List Char` so that every theorem below is kernel-computable.  ASCII is
assumed throughout (the inputs are GitHub paths, PR bodies and tool
diagnostics). -/

/-- Python `str.split()` (no argument): split on runs of whitespace and drop
empty tokens.  `acc` holds the current token, reversed. -/
def wsSplitAux : List Char → List Char → List (List Char)
  | [], acc => if acc = [] then [] else [acc.reverse]
  | c :: rest, acc =>
      if c.isWhitespace then
        if acc = [] then wsSplitAux rest []
        else acc.reverse :: wsSplitAux rest []
      else wsSplitAux rest (c :: acc)

/-- Python `str.split()` on a string. -/
def pyWsSplit (s : String) : List (List Char) :=
  wsSplitAux s.data []

/-- Numeric value of a digit token, as Python `int` on an all-digit string. -/
def digitsToNat (ds : List Char) : Nat :=
  ds.foldl (fun a c => a * 10 + (c.toNat - 48)) 0

/-- Python `needle in hay` substring test over character lists. -/
def containsSubList (needle : List Char) : List Char → Bool
  | [] => needle.isPrefixOf []
  | c :: rest => needle.isPrefixOf (c :: rest) || containsSubList needle rest

/-- Fueled worker for Python `str.replace(old, new)`: replace every
non-overlapping occurrence, scanning left to right.  The fuel (initially the
string length) only bounds recursion depth; each step consumes at least one
character, so the bound is never hit. -/
def replaceAux (old new : List Char) : Nat → List Char → List Char
  | _, [] => []
  | 0, s => s
  | fuel + 1, c :: rest =>
      if old ≠ [] && old.isPrefixOf (c :: rest) then
        new ++ replaceAux old new fuel ((c :: rest).drop old.length)
      else c :: replaceAux old new fuel rest

/-- Python `s.replace(old, new)`. -/
def pyReplace (s old new : String) : String :=
  String.mk (replaceAux old.data new.data s.data.length s.data)

/-! ## PR/issue harvester (`scrape_repo`, `main.py` lines 102-185) -/

/-- One pull request as seen by `scrape_repo`.  `mergedProbeStatus` is the
HTTP status of the `GET .../pulls/<n>/merge` probe (line 104; 204 means
merged, line 105).  `issueIsPullRequest n` is the forge's answer to
`repository.get_issue(n).pull_request` being non-null (line 125).
`changedFiles` is `pr.get_files()` in order (line 138). -/
structure PRInfo where
  number : Nat
  mergedProbeStatus : Nat
  body : Option String
  issueIsPullRequest : Nat → Bool
  changedFiles : List String

/-- Truthiness of `pr.body` in `if pr.body:` (line 119): `None` and the empty
string are falsy. -/
def prBodyTruthy : Option String → Bool
  | none => false
  | some b => b ≠ ""

/-- Issue-number extraction from the PR body (`main.py` lines 120-122):
`[int(word[1:]) for word in pr.body.split() if word.startswith("#") and word[1:].isdigit()]`.
A token counts only when it starts with `#` and the rest is one or more
digits (`"".isdigit()` is false in Python, so a bare `#` is excluded). -/
def extractIssueNumbers (body : String) : List Nat :=
  (pyWsSplit body).filterMap
    (fun w =>
      match w with
      | '#' :: rest =>
          if rest ≠ [] && rest.all (fun c => c.isDigit) then some (digitsToNat rest)
          else none
      | _ => none)

/-- Closed-issue list of the PR entry (`main.py` lines 123-135): each
extracted number whose referenced item is not itself a pull request. -/
def closedIssueNumbers (pr : PRInfo) : List Nat :=
  match pr.body with
  | none => []
  | some b => (extractIssueNumbers b).filter (fun n => !(pr.issueIsPullRequest n))

/-- The changed-files loop of `scrape_repo` (`main.py` lines 139-166), which
returns how many times the PR entry is appended to the intermediate store.
The write block at lines 157-166 is indented INSIDE `for file in files:` at
the same level as the suffix test (line 140), so it executes once per file
iteration in which both lists are already non-empty.  The accumulator is
(number of retained changed files so far, number of writes so far). -/
def scrapeFileLoopWrites (fileOfInterest : String) (numClosedIssues : Nat)
    (files : List String) : Nat :=
  (files.foldl
    (fun (acc : Nat × Nat) f =>
      let changed :=
        if ('/' :: fileOfInterest.data).isSuffixOf f.data then acc.1 + 1 else acc.1
      let writes := if 0 < changed && 0 < numClosedIssues then acc.2 + 1 else acc.2
      (changed, writes))
    (0, 0)).2

/-- Number of intermediate-store records `scrape_repo` appends for one PR
(`main.py` lines 102-168): nothing unless the merge probe returned 204
(line 105); nothing when the body is falsy (line 119, the files loop is inside
that branch); otherwise the writes produced by the files loop. -/
def writesForPR (fileOfInterest : String) (pr : PRInfo) : Nat :=
  if pr.mergedProbeStatus = 204 then
    if prBodyTruthy pr.body then
      scrapeFileLoopWrites fileOfInterest (closedIssueNumbers pr).length pr.changedFiles
    else 0
  else 0

/-- A merged PR qualifying for the intermediate store: body `"Fixes #50"`
linking one real issue, and two changed files of which the first matches the
designated resource file `go-edit.obo`. -/
def c1PR : PRInfo where
  number := 100
  mergedProbeStatus := 204
  body := some "Fixes #50"
  issueIsPullRequest := fun _ => false
  changedFiles := ["src/ontology/go-edit.obo", "README.md"]

/-! ## Scrape loop exception handling (`main.py` lines 102, 179-184) -/

/-- Outcome of processing one PR inside the `try` at line 106. -/
inductive PROutcome
  | ok
  | rateLimited
  | otherError

/-- Observable events of the scrape loop. -/
inductive ScrapeEvent
  | attempt (n : Nat)
  | sleep60
  | processed (n : Nat)
  | errorLogged (n : Nat)
deriving DecidableEq

/-- The `for pr in pull_requests:` loop with its two handlers (`main.py`
lines 102, 179-184): `except RateLimitExceededException` sleeps 60 seconds and
executes `continue`, which advances the `for` iterator to the NEXT pull
request; `except Exception` logs and falls through, likewise advancing.  The
per-PR outcome is given by an oracle `outcome`. -/
def scrapeLoopEvents (outcome : Nat → PROutcome) : List Nat → List ScrapeEvent
  | [] => []
  | n :: rest =>
    match outcome n with
    | PROutcome.ok =>
        ScrapeEvent.attempt n :: ScrapeEvent.processed n :: scrapeLoopEvents outcome rest
    | PROutcome.rateLimited =>
        ScrapeEvent.attempt n :: ScrapeEvent.sleep60 :: scrapeLoopEvents outcome rest
    | PROutcome.otherError =>
        ScrapeEvent.attempt n :: ScrapeEvent.errorLogged n :: scrapeLoopEvents outcome rest

/-- Outcome oracle for the rate-limit scenario: PR 1 raises
`RateLimitExceededException`, every other PR processes normally. -/
def c3Outcome : Nat → PROutcome :=
  fun n => if n = 1 then PROutcome.rateLimited else PROutcome.ok

/-! ## Format normalizer (`utils.py` `owl2obo`, lines 53-81) -/

/-- Result of `subprocess.run` on the ROBOT conversion command. -/
structure ToolResult where
  returncode : Int
  stdout : String

/-- `"INVALID ONTOLOGY FILE ERROR" in result.stdout` (`utils.py` line 75). -/
def containsInvalidDiag (s : String) : Bool :=
  containsSubList "INVALID ONTOLOGY FILE ERROR".data s.data

/-- Output path handed to ROBOT via `-o` (`utils.py` line 60):
`str(owl_file).replace(".owl", ".obo")`. -/
def oboOutputPath (owlFile : String) : String :=
  pyReplace owlFile ".owl" ".obo"

/-- `owl2obo` interpretation of the tool result (`utils.py` lines 70-81):
returncode 0 → success, Python returns `None` (`Except.ok none`); non-zero
with the invalid-ontology diagnostic in stdout → `return 0`
(`Except.ok (some 0)`); any other non-zero → `raise RuntimeError("ROBOT
command failed: ...")`, re-wrapped by the `except Exception` at lines 80-81
into `RuntimeError("Error converting OWL to OBO: ...")`, which escapes the
function (`Except.error`). -/
def owl2obo (r : ToolResult) : Except String (Option Nat) :=
  if r.returncode = 0 then Except.ok none
  else if containsInvalidDiag r.stdout then Except.ok (some 0)
  else Except.error ("Error converting OWL to OBO: ROBOT command failed: " ++ r.stdout)

/-- The owl branch of `analyze_repo` (`main.py` lines 258-262):
`n = owl2obo(new); o = owl2obo(old); if n == 0 or o == 0: continue`.
An exception from either call escapes `analyze_repo` (the calls are outside
any `try`), aborting the run; `Except.ok true` means the `continue` fires
(the record is skipped, the run goes on); `Except.ok false` means analysis
proceeds. -/
def owlBranch (rn ro : ToolResult) : Except String Bool :=
  match owl2obo rn with
  | Except.error e => Except.error e
  | Except.ok n =>
    match owl2obo ro with
    | Except.error e => Except.error e
    | Except.ok o => Except.ok (n = some 0 || o = some 0)

/-! ## Analyze-stage temporary directory (`main.py` lines 242-301) -/

/-- How one record's iteration of the analyze loop ends:
`owlInvalid` — `continue` at line 262 (conversion flagged the file invalid);
`loadError` — `continue` at line 270 (`ValueError`/`FileNotFoundError` from
`get_adapter`); `processed` — the iteration reaches the cleanup at lines
300-301. -/
inductive AnalyzeOutcome
  | owlInvalid
  | loadError
  | processed
deriving DecidableEq

/-- Writing a file into the temp directory (`open(..., "wb")` overwrites, so
an already-present name is not duplicated). -/
def addTmpFile (tmp : List String) (f : String) : List String :=
  if tmp.contains f then tmp else tmp ++ [f]

/-- Effect of one record iteration on the temp-directory contents
(`main.py` lines 242-301): the two downloads put `new.<ext>` and `old.<ext>`
into the directory (lines 247-255); the `continue` at line 262 and the
`continue` at line 270 both bypass the cleanup, so the files stay; only a
fully processed iteration reaches `shutil.rmtree(TMP_DIR)` +
`makedirs(TMP_DIR)` (lines 300-301), which empties it. -/
def analyzeStepTmp (tmp : List String) (ext : String) (outcome : AnalyzeOutcome) : List String :=
  let tmp1 := addTmpFile (addTmpFile tmp ("new." ++ ext)) ("old." ++ ext)
  match outcome with
  | AnalyzeOutcome.owlInvalid => tmp1
  | AnalyzeOutcome.loadError => tmp1
  | AnalyzeOutcome.processed => []

/-- Temp-directory contents observed immediately before each record of the
analyze loop, starting from contents `tmp`. -/
def tmpStatesBefore (tmp : List String) : List (String × AnalyzeOutcome) → List (List String)
  | [] => []
  | (ext, oc) :: rest => tmp :: tmpStatesBefore (analyzeStepTmp tmp ext oc) rest

/-! ## CLI `analyze` wiring (`cli.py` lines 79-87, `main.py` line 189) -/

/-- Parameter count of `analyze_repo(repo, token, output_file, overwrite=True)`
(`main.py` line 189): four positional-or-keyword parameters, no `*args`. -/
def analyzeRepoParamCount : Nat := 4

/-- Positional arguments passed by the CLI `analyze` command (`cli.py` line
87): `analyze_repo(repo, token, output_file, from_pr, overwrite)`. -/
def analyzeCliCallArgCount : Nat := 5

/-- Python call binding for a function with `params` positional-or-keyword
parameters and no varargs: a call with more positional arguments than
parameters raises `TypeError`. -/
def pythonCallBinds (args params : Nat) : Bool :=
  args ≤ params

/-! ## Theorems -/

/-- C1: the spec requires that a confirmed-merged PR with at least one closed
linked issue and at least one matching changed file is appended to the
intermediate store exactly once.  The write block of `scrape_repo`
(`main.py` lines 157-166) is indented inside the `for file in files:` loop,
so the qualifying PR `c1PR` (merged, one closed issue, matching first changed
file followed by one more changed file) is appended TWICE. -/
theorem c1_qualifying_pr_written_twice :
    writesForPR "go-edit.obo" c1PR = 2 ∧ closedIssueNumbers c1PR = [50] := by
  decide

/-- C2: the spec requires the temporary directory to be empty immediately
before and after each record of the analyze loop.  The `continue` at
`main.py` line 262 (invalid owl normalization) bypasses the cleanup at lines
300-301, so after a skipped first record the second record starts with
`new.owl` and `old.owl` still present. -/
theorem c2_tmp_not_cleared_after_skip :
    tmpStatesBefore [] [("owl", AnalyzeOutcome.owlInvalid), ("obo", AnalyzeOutcome.processed)]
      = [[], ["new.owl", "old.owl"]]
    ∧ (["new.owl", "old.owl"] : List String) ≠ [] := by
  decide

/-- C3: the spec says a rate-limit exception makes the harvester sleep 60
seconds and retry the SAME PR.  The `continue` at `main.py` line 182 advances
the `for` iterator instead: with PRs `[1, 2]` and PR 1 raising
`RateLimitExceededException`, the loop sleeps and then attempts PR 2,
attempting PR 1 exactly once in the whole run. -/
theorem c3_rate_limited_pr_not_retried :
    scrapeLoopEvents c3Outcome [1, 2]
      = [ScrapeEvent.attempt 1, ScrapeEvent.sleep60,
         ScrapeEvent.attempt 2, ScrapeEvent.processed 2]
    ∧ (scrapeLoopEvents c3Outcome [1, 2]).count (ScrapeEvent.attempt 1) = 1 := by
  decide

/-- C4 counterexample: the claim says a non-timeout request failure (e.g. an
HTTP 404) is propagated to the caller of `download_file`.  At the concrete
trace `[response 404]` the `except RequestException` handler (`utils.py`
lines 104-106) catches `HTTPError`, logs, and `break`s: the function returns
normally (`abortedReturn`), and no exception reaches the caller. -/
theorem c4_http_error_not_propagated :
    resultPropagatesToCaller
        (downloadFileRun [FetchAttempt.response 404 "Not Found"] none).1 = false
    ∧ (downloadFileRun [FetchAttempt.response 404 "Not Found"] none).1
        = DownloadResult.abortedReturn := by
  decide

/-- C4 (amended): any request-level failure other than a read timeout —
an exception from the request itself or an HTTP error status raised by
`raise_for_status` — aborts the fetch at once (the remaining attempts are
never consumed, i.e. no retry), leaves the destination file unchanged, and is
swallowed inside `download_file`, which returns normally instead of
propagating the failure. -/
theorem c4_nontimeout_failure_swallowed (e body : String) (st : Nat)
    (rest rest2 : List FetchAttempt) (file : Option String) (h : 400 ≤ st) :
    downloadFileRun (FetchAttempt.reqError e :: rest) file
      = (DownloadResult.abortedReturn, file)
    ∧ downloadFileRun (FetchAttempt.response st body :: rest2) file
        = (DownloadResult.abortedReturn, file)
    ∧ resultPropagatesToCaller DownloadResult.abortedReturn = false := by
  refine ⟨rfl, ?_, rfl⟩
  simp [downloadFileRun, Nat.not_lt.mpr h]

/-- Witness for `c4_nontimeout_failure_swallowed` at a concrete 404 trace. -/
theorem c4_swallowed_witness :
    400 ≤ 404
    ∧ (downloadFileRun [FetchAttempt.reqError "boom"] none
          = (DownloadResult.abortedReturn, none)
        ∧ downloadFileRun [FetchAttempt.response 404 "x"] none
            = (DownloadResult.abortedReturn, none)
        ∧ resultPropagatesToCaller DownloadResult.abortedReturn = false) :=
  ⟨by decide, c4_nontimeout_failure_swallowed "boom" "x" 404 [] [] none (by decide)⟩

/-- C5: on resume (`analyze_repo` with an existing final store and
`overwrite = False`, `main.py` lines 220-240), when the two id sets differ the
plan opens the final store in append mode, writes no metadata block, and
iterates exactly the records whose number is harvested but not yet analyzed;
when the id sets coincide, the function returns at line 226 before opening the
store for writing, so nothing is written. -/
theorem c5_resume_set_difference (scraped analyzed : List Nat)
    (h : scraped.toFinset ≠ analyzed.toFinset) :
    (∃ l, analyzePlan true false scraped analyzed
          = AnalyzePlan.run StoreMode.append false l
        ∧ ∀ n, n ∈ l ↔ n ∈ scraped ∧ n ∉ analyzed)
    ∧ ∀ s a : List Nat, s.toFinset = a.toFinset →
        analyzePlan true false s a = AnalyzePlan.earlyExit := by
  constructor
  · have hplan : analyzePlan true false scraped analyzed
        = AnalyzePlan.run StoreMode.append false
            (scraped.filter (fun n => decide (n ∈ scraped.toFinset \ analyzed.toFinset))) := by
      simp [analyzePlan, h]
    refine ⟨_, hplan, fun n => ?_⟩
    simp only [List.mem_filter, decide_eq_true_eq, Finset.mem_sdiff, List.mem_toFinset]
    tauto
  · intro s a hsa
    simp [analyzePlan, hsa]

/-- Witness for `c5_resume_set_difference`: harvested `{3, 1}`, analyzed
`{3}`, so exactly record 1 remains. -/
theorem c5_resume_witness :
    ([3, 1] : List Nat).toFinset ≠ ([3] : List Nat).toFinset
    ∧ ((∃ l, analyzePlan true false [3, 1] [3]
            = AnalyzePlan.run StoreMode.append false l
          ∧ ∀ n, n ∈ l ↔ n ∈ [3, 1] ∧ n ∉ [3])
        ∧ ∀ s a : List Nat, s.toFinset = a.toFinset →
            analyzePlan true false s a = AnalyzePlan.earlyExit) :=
  ⟨by decide, c5_resume_set_difference [3, 1] [3] (by decide)⟩

/-- C6: the rate-limit policy (`main.py` lines 172-177): when the remaining
quota is below 10 and the reset time has not passed, the sleep lasts exactly
until the reset time plus the 10-second buffer (and in particular at least 10
seconds, so it is the long sleep, not the 0.72-second pacing delay);
otherwise the fixed 0.72-second pacing sleep is taken.  The witness
instantiates `remaining = 3`. -/
theorem c6_rate_limit_policy (remaining : Nat) (reset now : ℚ) (h : now ≤ reset) :
    (remaining < 10 →
        now + sleepDuration remaining reset now = reset + 10
        ∧ 10 ≤ sleepDuration remaining reset now)
    ∧ (10 ≤ remaining → sleepDuration remaining reset now = 0.72) := by
  constructor
  · intro hlt
    have hmax : sleepDuration remaining reset now = reset - now + 10 := by
      simp only [sleepDuration, if_pos hlt]
      rw [max_eq_right]
      linarith
    rw [hmax]
    constructor
    · ring
    · linarith
  · intro hge
    simp only [sleepDuration, if_neg (by omega : ¬ remaining < 10)]

/-- Witness for `c6_rate_limit_policy`: with 3 remaining calls, reset at 50
and current time 20, the long sleep of 40 seconds (until 60 = reset + 10) is
taken. -/
theorem c6_rate_limit_witness :
    (20 : ℚ) ≤ 50
    ∧ (20 + sleepDuration 3 50 20 = 50 + 10 ∧ 10 ≤ sleepDuration 3 50 20) :=
  ⟨by norm_num, (c6_rate_limit_policy 3 50 20 (by norm_num)).1 (by norm_num)⟩

/-- C7: `owl2obo` interprets the tool result in exactly three ways
(`utils.py` lines 70-81): exit status 0 is success (Python `None`), with the
converted file at the sibling `.obo` path handed to ROBOT via `-o`; a
non-zero status whose stdout carries the invalid-ontology diagnostic yields
the marker `0`, and the caller's test (`main.py` line 261) then skips the
record without the run failing; any other non-zero status raises a
`RuntimeError` that escapes `analyze_repo` and aborts the run, as does any
such error from either conversion in the owl branch. -/
theorem c7_tool_result_interpretation (r rOther : ToolResult) :
    (r.returncode = 0 →
        owl2obo r = Except.ok none ∧ oboOutputPath "new.owl" = "new.obo")
    ∧ (r.returncode ≠ 0 → containsInvalidDiag r.stdout = true →
        owl2obo r = Except.ok (some 0)
        ∧ ∀ o, owl2obo rOther = Except.ok o → owlBranch r rOther = Except.ok true)
    ∧ (r.returncode ≠ 0 → containsInvalidDiag r.stdout = false →
        owl2obo r
          = Except.error ("Error converting OWL to OBO: ROBOT command failed: " ++ r.stdout)
        ∧ owlBranch r rOther
          = Except.error ("Error converting OWL to OBO: ROBOT command failed: " ++ r.stdout)) := by
  refine ⟨?_, ?_, ?_⟩
  · intro h0
    exact ⟨by simp [owl2obo, h0], by decide⟩
  · intro hne hdiag
    have ho : owl2obo r = Except.ok (some 0) := by
      simp [owl2obo, hne, hdiag]
    refine ⟨ho, fun o hoo => ?_⟩
    simp [owlBranch, ho, hoo]
  · intro hne hdiag
    have ho : owl2obo r
        = Except.error ("Error converting OWL to OBO: ROBOT command failed: " ++ r.stdout) := by
      simp [owl2obo, hne, hdiag]
    exact ⟨ho, by simp [owlBranch, ho]⟩

/-- Witness for `c7_tool_result_interpretation`: a failed conversion whose
stdout carries the invalid-ontology diagnostic yields the marker and the
record skip, the other conversion having succeeded. -/
theorem c7_tool_result_witness :
    ((1 : Int) ≠ 0)
    ∧ containsInvalidDiag "INVALID ONTOLOGY FILE ERROR: bad axiom" = true
    ∧ (owl2obo ⟨1, "INVALID ONTOLOGY FILE ERROR: bad axiom"⟩ = Except.ok (some 0)
        ∧ ∀ o, owl2obo ⟨0, "ok"⟩ = Except.ok o →
            owlBranch ⟨1, "INVALID ONTOLOGY FILE ERROR: bad axiom"⟩ ⟨0, "ok"⟩
              = Except.ok true) :=
  ⟨by decide, by decide,
    (c7_tool_result_interpretation ⟨1, "INVALID ONTOLOGY FILE ERROR: bad axiom"⟩
      ⟨0, "ok"⟩).2.1 (by decide) (by decide)⟩

/-- C8: the spec says an absent final store in append mode is treated as an
empty analyzed set, so every harvested record is processed.  In the source
the branch at `main.py` lines 230-232 never assigns `pr_remaining`, and line
240 then references it: with `overwrite = False` and no existing final store
the function raises `NameError` instead of producing the run-everything
plan. -/
theorem c8_absent_final_store_name_error :
    analyzePlan false false [5, 2] [] = AnalyzePlan.nameError
    ∧ AnalyzePlan.nameError ≠ AnalyzePlan.run StoreMode.append false [5, 2] := by
  decide

/-- C9: the spec says the analyze stage accepts an optional lower-bound PR
number.  The CLI passes five positional arguments
(`analyze_repo(repo, token, output_file, from_pr, overwrite)`, `cli.py` line
87) to `analyze_repo`, which has only four parameters (`main.py` line 189),
so every `analyze` invocation raises `TypeError` and no lower-bound filtering
exists anywhere in `analyze_repo`. -/
theorem c9_cli_call_arity_mismatch :
    pythonCallBinds analyzeCliCallArgCount analyzeRepoParamCount = false := by
  decide

/-- C10: `download_file` modifies the destination only on a success status:
whenever the run does not end in success the destination content is exactly
the initial content, and a successful run ends at some attempt whose response
status passed `raise_for_status` and whose full body became the new file
content (`utils.py` lines 96-106). -/
theorem c10_destination_written_only_on_success
    (attempts : List FetchAttempt) (file : Option String) :
    ((downloadFileRun attempts file).1 ≠ DownloadResult.success →
        (downloadFileRun attempts file).2 = file)
    ∧ ((downloadFileRun attempts file).1 = DownloadResult.success →
        ∃ st body, st < 400 ∧ FetchAttempt.response st body ∈ attempts ∧
          (downloadFileRun attempts file).2 = some body) := by
  induction attempts with
  | nil =>
    exact ⟨fun _ => rfl, fun h => by simp [downloadFileRun] at h⟩
  | cons a rest ih =>
    cases a with
    | response st body =>
      by_cases hst : st < 400
      · constructor
        · intro hne
          exact absurd (by simp [downloadFileRun, hst]) hne
        · intro _
          exact ⟨st, body, hst, List.mem_cons_self _ _, by simp [downloadFileRun, hst]⟩
      · constructor
        · intro _
          simp [downloadFileRun, hst]
        · intro h
          simp [downloadFileRun, hst] at h
    | readTimeout =>
      constructor
      · intro h
        simpa [downloadFileRun] using ih.1 (by simpa [downloadFileRun] using h)
      · intro h
        obtain ⟨st, body, h1, h2, h3⟩ := ih.2 (by simpa [downloadFileRun] using h)
        exact ⟨st, body, h1, List.mem_cons_of_mem _ h2, by simpa [downloadFileRun] using h3⟩
    | reqError e =>
      constructor
      · intro _
        simp [downloadFileRun]
      · intro h
        simp [downloadFileRun] at h

/-- Witness for `c10_destination_written_only_on_success`: after one timeout
retry, a 200 response writes its body to the destination. -/
theorem c10_download_witness :
    ∃ st body, st < 400
      ∧ FetchAttempt.response st body
          ∈ [FetchAttempt.readTimeout, FetchAttempt.response 200 "abc"]
      ∧ (downloadFileRun [FetchAttempt.readTimeout, FetchAttempt.response 200 "abc"] none).2
          = some body :=
  (c10_destination_written_only_on_success
    [FetchAttempt.readTimeout, FetchAttempt.response 200 "abc"] none).2 (by decide)
